import Mathlib

/-!
Verification of the heart-disease classification preprocessing and serving
core: a shallow embedding of code/preprocess.py (HeartDiseaseTransformer),
code/predictor.py (HeartDiseasePredictor) and the data_transformer function
of code/02_data-preparation.ipynb, with theorems about the embedded
operations.

Modelling conventions:
- pandas numeric values are exact rationals (the claims settled here do not
  hinge on binary floating-point representation);
- a DataFrame cell is a number, a string (after categorical replacement), or
  NaN (pandas' missing-value marker, inserted for absent keys);
- a DataFrame row has exactly the 13 feature columns the predictor selects;
- pandas in-place mutation is made explicit by returning, from a method
  call, the state of the mutated objects alongside the return value.
-/

namespace HeartDisease

/-- The 13 feature columns, in the canonical order of the column list used by
predictor.py and the notebooks. -/
inductive Feature where
  | age | sex | cp | trestbps | chol | fbs | restecg
  | thalach | exang | oldpeak | slope | ca | thal
  deriving DecidableEq, Fintype

/-- The column name of each feature, as in the col_names lists of the source. -/
def featureName : Feature → String
  | .age => "age"
  | .sex => "sex"
  | .cp => "cp"
  | .trestbps => "trestbps"
  | .chol => "chol"
  | .fbs => "fbs"
  | .restecg => "restecg"
  | .thalach => "thalach"
  | .exang => "exang"
  | .oldpeak => "oldpeak"
  | .slope => "slope"
  | .ca => "ca"
  | .thal => "thal"

/-- One DataFrame cell: a numeric value, a category label string (produced by
the replace step), or NaN (pandas missing-value marker). -/
inductive Cell where
  | num (q : ℚ)
  | lab (s : String)
  | nan
  deriving DecidableEq

instance : Inhabited Cell := ⟨Cell.nan⟩

/-- One DataFrame row over the 13 feature columns. -/
abbrev Row := Feature → Cell

/-- One request instance: a mapping (dict) from key names to numeric values,
possibly missing required keys or carrying extra keys. Lookup takes the first
binding, matching dict key uniqueness. -/
abbrev Observation := List (String × ℚ)

/-- cp code table of HeartDiseaseTransformer.__init__ (self._cp_dict). -/
def cp_dict : List (ℚ × String) :=
  [(1, "typical angina"), (2, "atypical angina"),
   (3, "non-anginal pain"), (4, "asymptomatic")]

/-- restecg code table of HeartDiseaseTransformer.__init__ (self._restecg_dict). -/
def restecg_dict : List (ℚ × String) :=
  [(0, "normal"), (1, "wave abnormality"), (2, "ventricular hypertrophy")]

/-- thal code table of HeartDiseaseTransformer.__init__ (self._thal_dict). -/
def thal_dict : List (ℚ × String) :=
  [(3, "normal"), (6, "fixed defect"), (7, "reversable defect")]

/-- The preprocessor object: its state is the three code tables set by
__init__ and never reassigned. -/
structure HeartDiseaseTransformer where
  cp_d : List (ℚ × String)
  restecg_d : List (ℚ × String)
  thal_d : List (ℚ × String)

/-- HeartDiseaseTransformer(): __init__ sets the three fixed code tables. -/
def HeartDiseaseTransformer.init : HeartDiseaseTransformer :=
  ⟨cp_dict, restecg_dict, thal_dict⟩

/-- pandas Series.replace with a numeric-keyed dict, on one cell: a numeric
cell equal to a key becomes the mapped label; any other cell (a number not in
the table, a label, or NaN) is left as it is. -/
def replaceCell (table : List (ℚ × String)) : Cell → Cell
  | Cell.num q =>
    match table.lookup q with
    | some s => Cell.lab s
    | none => Cell.num q
  | Cell.lab s => Cell.lab s
  | Cell.nan => Cell.nan

/-- The effect of preprocess_X on one row: the cp, restecg and thal columns
go through replace with the transformer's tables; every other column is
untouched. -/
def preprocessRowWith (t : HeartDiseaseTransformer) (r : Row) : Row := fun f =>
  match f with
  | Feature.cp => replaceCell t.cp_d (r Feature.cp)
  | Feature.restecg => replaceCell t.restecg_d (r Feature.restecg)
  | Feature.thal => replaceCell t.thal_d (r Feature.thal)
  | f => r f

/-- The value preprocess_X(data) computes: each row with the three
categorical columns replaced. -/
def preprocess_X (t : HeartDiseaseTransformer) (data : List Row) : List Row :=
  data.map (preprocessRowWith t)

/-- A call data2 = t.preprocess_X(data), with effects explicit: the triple is
(state of t after the call, state of the argument DataFrame after the call,
returned DataFrame). The three replace calls use inplace = True, so the
argument is mutated and the return value aliases it; t's tables are only
read, never written. -/
def preprocess_X_call (t : HeartDiseaseTransformer) (data : List Row) :
    HeartDiseaseTransformer × List Row × List Row :=
  (t, preprocess_X t data, preprocess_X t data)

/-- preprocess_y(data): (data > 0).astype(int), elementwise on a sequence of
non-negative integer labels. Not in place: a new sequence is returned. -/
def preprocess_y (data : List ℕ) : List ℕ :=
  data.map (fun l => if 0 < l then 1 else 0)

/-- Round a rational to the nearest integer, ties to even: the rounding
np.round applies (numpy "round half to even"). Written over the numerator
and (positive) denominator: with f the floor of q and rem the remainder
q.num - f * q.den, the fractional part rem / q.den is below, above or at one
half according as 2 * rem is below, above or at q.den. -/
def roundHalfToEven (q : ℚ) : ℤ :=
  let f : ℤ := q.num.fdiv q.den
  let rem : ℤ := q.num - f * q.den
  if 2 * rem < (q.den : ℤ) then f
  else if (q.den : ℤ) < 2 * rem then f + 1
  else if f % 2 = 0 then f else f + 1

/-- Multiplication of a rational by 100, written on the numerator so that it
evaluates by kernel reduction (the lemma timesHundred_eq identifies it with
100 * q). -/
def timesHundred (q : ℚ) : ℚ := mkRat (100 * q.num) q.den

/-- np.round(p, 2): round to two decimal places, halves to even; the value
is the rounded integer count of hundredths, divided by 100. -/
def np_round2 (p : ℚ) : ℚ := mkRat (roundHalfToEven (timesHundred p)) 100

/-- str(x) for a Python float holding an exact decimal: an integral value
renders with a trailing ".0" (str(31.0) is "31.0"). The non-integral branch
is never reached by the predictor's formatting, which always passes an
integral value (np_round2 p * 100). -/
def pyFloatStr (q : ℚ) : String :=
  if q.den = 1 then toString q.num ++ ".0"
  else toString q.num ++ "/" ++ toString q.den

/-- The formatting predictor.py applies to one positive-class probability:
str(np.round(p, 2) * 100) + "%". -/
def formatProbability (p : ℚ) : String :=
  pyFloatStr (timesHundred (np_round2 p)) ++ "%"

/-- The trained artifact's predict_proba capability, per model-ready row: a
probability distribution (p no-disease, p disease) over the two classes. -/
abbrev Model := Row → ℚ × ℚ

/-- Option-to-cell conversion used when a DataFrame is built from dicts: a
present key gives its numeric value, an absent key gives NaN. -/
def cellOfOpt : Option ℚ → Cell
  | some q => Cell.num q
  | none => Cell.nan

/-- pd.DataFrame(instances, columns = [the 13 names]), one row: each of the
13 columns takes the instance's value for that key, or NaN when the key is
absent; keys outside the column list are dropped. -/
def toRow (inst : Observation) : Row := fun f =>
  cellOfOpt (inst.lookup (featureName f))

/-- pd.DataFrame(instances, columns = [the 13 names]): one row per instance,
in order. The cell values are copied out of the dicts. -/
def buildFrame (instances : List Observation) : List Row :=
  instances.map toRow

/-- The predictor object of predictor.py: self._model and self._preprocessor,
set by __init__ and never reassigned. -/
structure HeartDiseasePredictor where
  model : Model
  preprocessor : HeartDiseaseTransformer

/-- A call outputs = p.predict(instances), with effects explicit: the triple
is (returned list of formatted strings, state of p after the call, state of
the caller's instances after the call). The method builds a fresh DataFrame
from the instances, preprocesses it (mutating only that fresh frame), invokes
predict_proba, and formats the positive-class probability p[1] of each row. -/
def predict_method (p : HeartDiseasePredictor) (instances : List Observation) :
    List String × HeartDiseasePredictor × List Observation :=
  let df := buildFrame instances
  let call := preprocess_X_call p.preprocessor df
  let outputs := call.2.2.map p.model
  (outputs.map (fun pr => formatProbability pr.2), p, instances)

/-- A deserialized artifact: the pickled fitted pipeline or the pickled
preprocessor instance. -/
inductive Artifact where
  | modelArtifact (m : Model)
  | preprocessorArtifact (t : HeartDiseaseTransformer)

/-- A file's pickled content: either bytes that deserialize to an artifact,
or bytes on which pickle.load raises. -/
inductive PickleFile where
  | loads (a : Artifact)
  | corrupt

/-- The Python exceptions from_path can raise: FileNotFoundError from open()
(a builtin OSError subclass, i.e. a generic I/O error) and the unpickling
error pickle.load raises on corrupt bytes. No custom error class exists in
the source. -/
inductive PyError where
  | fileNotFoundError
  | unpicklingError
  deriving DecidableEq

/-- Whether an exception is a generic I/O error (an OSError subclass). -/
def PyError.isGenericIOError : PyError → Bool
  | PyError.fileNotFoundError => true
  | PyError.unpicklingError => false

/-- A directory: which pickle file, if any, each name holds. -/
abbrev ArtifactDir := String → Option PickleFile

/-- The fixed model artifact filename of from_path. -/
def model_filename : String := "log_model_v1.pkl"

/-- The fixed preprocessor artifact filename of from_path. -/
def preprocessor_filename : String := "preprocessor.pkl"

/-- HeartDiseasePredictor.from_path(model_dir): open and unpickle
log_model_v1.pkl, then preprocessor.pkl, and build the predictor from the two
payloads. An absent file surfaces open()'s FileNotFoundError; corrupt bytes
surface pickle.load's error. -/
def from_path (dir : ArtifactDir) : Except PyError (Artifact × Artifact) :=
  match dir model_filename with
  | none => Except.error PyError.fileNotFoundError
  | some PickleFile.corrupt => Except.error PyError.unpicklingError
  | some (PickleFile.loads m) =>
    match dir preprocessor_filename with
    | none => Except.error PyError.fileNotFoundError
    | some PickleFile.corrupt => Except.error PyError.unpicklingError
    | some (PickleFile.loads pre) => Except.ok (m, pre)

/-! Concrete fixtures: the example observation of the deployment notebook
(and of spec section 8), variants of it, and small predictors whose model
oracle is a constant distribution. -/

/-- The fixed example instance of the deployment notebook: age 63, sex 1,
cp 1, trestbps 145, chol 233, fbs 1, restecg 2, thalach 150, exang 0,
oldpeak 2.3, slope 3, ca 0, thal 6. -/
def exObs : Observation :=
  [("age", 63), ("sex", 1), ("cp", 1), ("trestbps", 145), ("chol", 233), ("fbs", 1),
   ("restecg", 2), ("thalach", 150), ("exang", 0), ("oldpeak", mkRat 23 10), ("slope", 3),
   ("ca", 0), ("thal", 6)]

/-- The example instance with one extra, unknown key appended. -/
def extraObs : Observation := exObs ++ [("unknown_key", 99)]

/-- The example instance with the required key age removed. -/
def obsNoAge : Observation :=
  [("sex", 1), ("cp", 1), ("trestbps", 145), ("chol", 233), ("fbs", 1),
   ("restecg", 2), ("thalach", 150), ("exang", 0), ("oldpeak", mkRat 23 10), ("slope", 3),
   ("ca", 0), ("thal", 6)]

/-- A model oracle returning probability 0.31 for the positive class. -/
def model31 : Model := fun _ => (mkRat 69 100, mkRat 31 100)

/-- A predictor owning model31 and a freshly initialized preprocessor. -/
def predictor31 : HeartDiseasePredictor := ⟨model31, HeartDiseaseTransformer.init⟩

/-- A model oracle returning the uniform distribution. -/
def halfModel : Model := fun _ => (mkRat 1 2, mkRat 1 2)

/-- A predictor owning halfModel and a freshly initialized preprocessor. -/
def halfPredictor : HeartDiseasePredictor := ⟨halfModel, HeartDiseaseTransformer.init⟩

/-- One concrete row whose three categorical cells hold in-table codes. -/
def rowCpOne : Row := fun f =>
  match f with
  | Feature.cp => Cell.num 1
  | Feature.restecg => Cell.num 2
  | Feature.thal => Cell.num 6
  | _ => Cell.num 0

/-- A directory holding no file at all. -/
def emptyDir : ArtifactDir := fun _ => none

/-! Helper lemmas shared by the claim theorems. -/

/-- The list predict returns: the per-instance composition of row building,
categorical replacement, the model oracle's positive-class probability, and
formatting. -/
theorem predict_method_fst (p : HeartDiseasePredictor) (instances : List Observation) :
    (predict_method p instances).1
      = instances.map (fun inst =>
          formatProbability (p.model (preprocessRowWith p.preprocessor (toRow inst))).2) := by
  simp [predict_method, preprocess_X_call, preprocess_X, buildFrame, List.map_map]

/-- timesHundred computes multiplication by 100. -/
theorem timesHundred_eq (q : ℚ) : timesHundred q = 100 * q := by
  rw [timesHundred, Rat.mkRat_eq_div]
  push_cast
  rw [mul_div_assoc, Rat.num_div_den]

/-- np.round(p, 2) * 100 is the integer np.round assigns to 100 * p. -/
theorem timesHundred_np_round2 (p : ℚ) :
    timesHundred (np_round2 p) = (roundHalfToEven (100 * p) : ℚ) := by
  rw [np_round2, timesHundred_eq, timesHundred_eq, Rat.mkRat_eq_div]
  field_simp

/-- str of an integral float value always carries the trailing ".0". -/
theorem pyFloatStr_intCast (n : ℤ) : pyFloatStr (n : ℚ) = toString n ++ ".0" := by
  rw [pyFloatStr]
  simp [Rat.den_intCast, Rat.num_intCast]

/-- The formatted probability is the rounded integer percentage followed by
".0%": the string always contains a decimal point. -/
theorem formatProbability_eq (p : ℚ) :
    formatProbability p = toString (roundHalfToEven (100 * p)) ++ ".0%" := by
  rw [formatProbability, timesHundred_np_round2, pyFloatStr_intCast, String.append_assoc]
  rfl

/-! The claim theorems. -/

/-- Claim C1: on every batch, preprocess_X keeps length and order, and on
each record replaces a cp, restecg or thal code that is a key of its table
with exactly the documented label of that table, preserves verbatim any
value of those fields that is not a key of its table, and passes every
other field through unchanged. -/
theorem preprocess_X_code_table_mapping :
    ∀ (df : List Row) (i : ℕ),
      (preprocess_X HeartDiseaseTransformer.init df).length = df.length
      ∧ (preprocess_X HeartDiseaseTransformer.init df)[i]?
          = df[i]?.map (preprocessRowWith HeartDiseaseTransformer.init)
      ∧ ∀ r : Row,
          (∀ q s, cp_dict.lookup q = some s → r Feature.cp = Cell.num q →
            preprocessRowWith HeartDiseaseTransformer.init r Feature.cp = Cell.lab s)
          ∧ (∀ q, cp_dict.lookup q = none → r Feature.cp = Cell.num q →
            preprocessRowWith HeartDiseaseTransformer.init r Feature.cp = Cell.num q)
          ∧ (∀ q s, restecg_dict.lookup q = some s → r Feature.restecg = Cell.num q →
            preprocessRowWith HeartDiseaseTransformer.init r Feature.restecg = Cell.lab s)
          ∧ (∀ q, restecg_dict.lookup q = none → r Feature.restecg = Cell.num q →
            preprocessRowWith HeartDiseaseTransformer.init r Feature.restecg = Cell.num q)
          ∧ (∀ q s, thal_dict.lookup q = some s → r Feature.thal = Cell.num q →
            preprocessRowWith HeartDiseaseTransformer.init r Feature.thal = Cell.lab s)
          ∧ (∀ q, thal_dict.lookup q = none → r Feature.thal = Cell.num q →
            preprocessRowWith HeartDiseaseTransformer.init r Feature.thal = Cell.num q)
          ∧ (∀ f : Feature, f ≠ Feature.cp → f ≠ Feature.restecg → f ≠ Feature.thal →
            preprocessRowWith HeartDiseaseTransformer.init r f = r f) := by
  intro df i
  refine ⟨by simp [preprocess_X], by simp [preprocess_X, List.getElem?_map], fun r => ?_⟩
  refine ⟨fun q s hl hr => ?_, fun q hl hr => ?_, fun q s hl hr => ?_, fun q hl hr => ?_,
    fun q s hl hr => ?_, fun q hl hr => ?_, fun f h1 h2 h3 => ?_⟩
  · simp [preprocessRowWith, HeartDiseaseTransformer.init, replaceCell, hr, hl]
  · simp [preprocessRowWith, HeartDiseaseTransformer.init, replaceCell, hr, hl]
  · simp [preprocessRowWith, HeartDiseaseTransformer.init, replaceCell, hr, hl]
  · simp [preprocessRowWith, HeartDiseaseTransformer.init, replaceCell, hr, hl]
  · simp [preprocessRowWith, HeartDiseaseTransformer.init, replaceCell, hr, hl]
  · simp [preprocessRowWith, HeartDiseaseTransformer.init, replaceCell, hr, hl]
  · cases f
    all_goals first
      | rfl
      | exact absurd rfl h1
      | exact absurd rfl h2
      | exact absurd rfl h3

/-- Claim C2, counterexample: a predictor whose model returns positive-class
probability 0.31 on the section-8 example instance formats it as "31.0%",
not as the integer percentage string "31%" the claim states. -/
theorem predict_format_renders_decimal_point :
    (predict_method predictor31 [exObs]).1 = [("31.0%" : String)]
    ∧ (predict_method predictor31 [exObs]).1 ≠ [("31%" : String)] :=
  ⟨by decide, by decide⟩

/-- Claim C2, amended: predict formats each positive-class probability p as
str(np.round(p, 2) * 100) + "%", i.e. the integer nearest 100 * p (ties to
even) followed by ".0%"; the rendering always carries a decimal point, so a
probability of 0.31 renders "31.0%" rather than "31%". -/
theorem predict_format_round2_times100 :
    ∀ (p : HeartDiseasePredictor) (instances : List Observation),
      (predict_method p instances).1
        = instances.map (fun inst =>
            formatProbability (p.model (preprocessRowWith p.preprocessor (toRow inst))).2)
      ∧ ∀ q : ℚ, formatProbability q = toString (roundHalfToEven (100 * q)) ++ ".0%" := by
  intro p instances
  exact ⟨predict_method_fst p instances, formatProbability_eq⟩

/-- Claim C3, counterexample: a batch whose instance at index 1 is missing
the required key "age" raises nothing; pd.DataFrame fills the cell with NaN
and predict returns a formatted prediction for every instance of the batch,
so no MissingFeatureError exists or is raised. -/
theorem predict_missing_key_returns_full_batch :
    (predict_method halfPredictor [exObs, obsNoAge]).1
      = [("50.0%" : String), ("50.0%" : String)]
    ∧ obsNoAge.lookup (featureName Feature.age) = none
    ∧ toRow obsNoAge Feature.age = Cell.nan :=
  ⟨by decide, by decide, by decide⟩

/-- Claim C3, amended: predict performs no key validation: a required key
missing from an instance becomes a NaN cell in the built DataFrame, no error
is raised, and every instance of the batch still receives a prediction (the
output has one string per input instance). -/
theorem predict_missing_key_nan_no_error (p : HeartDiseasePredictor)
    (instances : List Observation) (i : ℕ) (inst : Observation) (f : Feature)
    (h1 : instances[i]? = some inst)
    (h2 : inst.lookup (featureName f) = none) :
    toRow inst f = Cell.nan
    ∧ ((predict_method p instances).1).length = instances.length := by
  constructor
  · rw [toRow, h2]
    rfl
  · rw [predict_method_fst]
    exact List.length_map _ _

/-- Claim C3, witness for the amended theorem at the concrete batch with
"age" missing on instance index 1. -/
theorem predict_missing_key_nan_no_error_witness :
    (([exObs, obsNoAge] : List Observation)[1]? = some obsNoAge)
    ∧ (obsNoAge.lookup (featureName Feature.age) = none)
    ∧ (toRow obsNoAge Feature.age = Cell.nan
        ∧ ((predict_method halfPredictor [exObs, obsNoAge]).1).length
            = ([exObs, obsNoAge] : List Observation).length) :=
  ⟨rfl, by decide,
    predict_missing_key_nan_no_error halfPredictor [exObs, obsNoAge] 1 obsNoAge
      Feature.age rfl (by decide)⟩

/-- Claim C4: preprocess_y binarizes elementwise (1 exactly when the label
is positive), preserving order and length, and maps [0,1,2,3,4] to
[0,1,1,1,1]. -/
theorem preprocess_y_binarizes_elementwise :
    (∀ labels : List ℕ, (preprocess_y labels).length = labels.length)
    ∧ (∀ (labels : List ℕ) (i : ℕ),
        (preprocess_y labels)[i]?
          = labels[i]?.map (fun l => if 0 < l then 1 else 0))
    ∧ preprocess_y [0, 1, 2, 3, 4] = [0, 1, 1, 1, 1] := by
  refine ⟨fun labels => ?_, fun labels i => ?_, rfl⟩
  · simp [preprocess_y]
  · simp [preprocess_y, List.getElem?_map]

/-- Claim C5, counterexample: loading from a directory missing the model
file surfaces the builtin FileNotFoundError, which is a generic I/O error
(an OSError subclass), not a custom ArtifactNotFound error. -/
theorem from_path_missing_model_is_generic_io_error :
    from_path emptyDir = Except.error PyError.fileNotFoundError
    ∧ PyError.isGenericIOError PyError.fileNotFoundError = true := ⟨rfl, rfl⟩

/-- Claim C5, amended: from_path reads the two fixed filenames
log_model_v1.pkl (first) and preprocessor.pkl; an absent file surfaces the
generic builtin FileNotFoundError and corrupt bytes surface pickle's
deserialization error; no custom ArtifactNotFound or ArtifactCorrupt error
class exists, and these two builtin exceptions are the only failures. -/
theorem from_path_builtin_error_behavior :
    ∀ dir : ArtifactDir,
      (dir model_filename = none → from_path dir = Except.error PyError.fileNotFoundError)
      ∧ (dir model_filename = some PickleFile.corrupt →
          from_path dir = Except.error PyError.unpicklingError)
      ∧ (∀ m, dir model_filename = some (PickleFile.loads m) →
          (dir preprocessor_filename = none →
            from_path dir = Except.error PyError.fileNotFoundError)
          ∧ (dir preprocessor_filename = some PickleFile.corrupt →
            from_path dir = Except.error PyError.unpicklingError)
          ∧ (∀ pre, dir preprocessor_filename = some (PickleFile.loads pre) →
            from_path dir = Except.ok (m, pre)))
      ∧ (∀ e, from_path dir = Except.error e →
          e = PyError.fileNotFoundError ∨ e = PyError.unpicklingError) := by
  intro dir
  refine ⟨fun h => by simp [from_path, h], fun h => by simp [from_path, h],
    fun m hm => ⟨fun h => by simp [from_path, hm, h], fun h => by simp [from_path, hm, h],
      fun pre h => by simp [from_path, hm, h]⟩, fun e he => ?_⟩
  rcases e with _ | _
  · exact Or.inl rfl
  · exact Or.inr rfl

/-- Claim C6: predict returns exactly one formatted string per input
instance, in input order: the output length equals the input length and the
i-th output is computed from the i-th input instance. -/
theorem predict_preserves_order_and_cardinality :
    ∀ (p : HeartDiseasePredictor) (instances : List Observation),
      ((predict_method p instances).1).length = instances.length
      ∧ ∀ i : ℕ, ((predict_method p instances).1)[i]?
          = (instances[i]?).map (fun inst =>
              formatProbability (p.model (preprocessRowWith p.preprocessor (toRow inst))).2) := by
  intro p instances
  rw [predict_method_fst]
  exact ⟨List.length_map _ _, fun i => List.getElem?_map _ _ _⟩

/-- Claim C7, counterexample: preprocess_X mutates the caller's argument:
after the call on a batch holding one row with cp code 1, the argument's
row carries the label "typical angina" in the cp field, no longer the
original numeric code, so the argument is not left unchanged. -/
theorem preprocess_X_mutates_caller_argument :
    (preprocess_X_call HeartDiseaseTransformer.init [rowCpOne]).2.1 ≠ [rowCpOne]
    ∧ ((preprocess_X_call HeartDiseaseTransformer.init [rowCpOne]).2.1.headI) Feature.cp
        = Cell.lab ("typical angina")
    ∧ rowCpOne Feature.cp = Cell.num 1 :=
  ⟨by decide, by decide, by decide⟩

/-- Claim C7, amended: preprocess_X replaces the cp, restecg and thal fields
of the caller's records in place (the three replace calls pass
inplace = True, so the returned DataFrame aliases the mutated argument, row
for row the field replacement), while the transformer's code tables are only
read, never written, so behavior is identical across invocations. -/
theorem preprocess_X_call_inplace_spec :
    ∀ (t : HeartDiseaseTransformer) (df : List Row),
      (preprocess_X_call t df).1 = t
      ∧ (preprocess_X_call t df).2.2 = (preprocess_X_call t df).2.1
      ∧ ∀ i : ℕ, ((preprocess_X_call t df).2.1)[i]? = df[i]?.map (preprocessRowWith t) := by
  intro t df
  exact ⟨rfl, rfl, fun i => by simp [preprocess_X_call, preprocess_X, List.getElem?_map]⟩

/-- Claim C8: extra keys cannot influence predict: two batches whose
instances agree on the lookups of all 13 required feature keys (whatever
other keys either carries) produce identical output lists. -/
theorem predict_ignores_extra_keys (p : HeartDiseasePredictor) (b1 b2 : List Observation)
    (h : b1.map (fun inst => fun f : Feature => inst.lookup (featureName f))
        = b2.map (fun inst => fun f : Feature => inst.lookup (featureName f))) :
    (predict_method p b1).1 = (predict_method p b2).1 := by
  have e : ∀ b : List Observation,
      (predict_method p b).1
        = (b.map (fun inst => fun f : Feature => inst.lookup (featureName f))).map
            (fun g => formatProbability
              (p.model (preprocessRowWith p.preprocessor (fun f => cellOfOpt (g f)))).2) := by
    intro b
    rw [predict_method_fst, List.map_map]
    rfl
  rw [e, e, h]

/-- Claim C8, witness: appending an unknown key to the example instance
leaves the prediction list unchanged. -/
theorem predict_ignores_extra_keys_witness :
    ([exObs].map (fun inst => fun f : Feature => inst.lookup (featureName f))
      = [extraObs].map (fun inst => fun f : Feature => inst.lookup (featureName f)))
    ∧ (predict_method halfPredictor [exObs]).1
        = (predict_method halfPredictor [extraObs]).1 :=
  ⟨by decide, predict_ignores_extra_keys halfPredictor [exObs] [extraObs] (by decide)⟩

/-- Claim C9: predict is a pure function of the predictor's immutable loaded
state and its inputs: a call leaves the predictor (model and preprocessor)
and the caller's instances unchanged, and the returned list is computed
instance by instance from that state and input alone. -/
theorem predict_pure_function_of_state_and_input :
    ∀ (p : HeartDiseasePredictor) (instances : List Observation),
      (predict_method p instances).2.1 = p
      ∧ (predict_method p instances).2.2 = instances
      ∧ (predict_method p instances).1
          = instances.map (fun inst =>
              formatProbability (p.model (preprocessRowWith p.preprocessor (toRow inst))).2) := by
  intro p instances
  exact ⟨rfl, rfl, predict_method_fst p instances⟩

/-- Claim C10: preprocess_y is idempotent: binarizing an already binarized
label sequence returns it unchanged. -/
theorem preprocess_y_idempotent :
    ∀ labels : List ℕ, preprocess_y (preprocess_y labels) = preprocess_y labels := by
  intro labels
  induction labels with
  | nil => rfl
  | cons head tail ih =>
    simp only [preprocess_y, List.map_cons, List.map_map] at ih ⊢
    rw [ih]
    rcases head with _ | n
    · rfl
    · simp

end HeartDisease
